import Mathlib

/-!
Verification of the img-metadata service core (`img-metadata.py`).

The Python source is shallowly embedded: the GPS IFD decoder
`get_gps_info` and the orchestrating `extract_metadata` become total Lean
functions; Python exceptions become `Option`/`Except` failure values;
Python float division on EXIF rationals is modelled exactly over `ℚ`;
external library calls (Pillow decoding, `imagehash`, `ImageCms`,
`piexif.load`, `ImageStat`) are modelled as oracle inputs in an
environment record, except the RGB histogram which is modelled from the
spec (the library computes it; the spec fixes its 768-bin meaning).
-/

namespace ImgMeta

/-- A Python byte string, as a list of byte values. -/
abbrev Bytes := List Nat

/-- The byte string b-S (GPSLatitudeRef south marker). -/
def bS : Bytes := [83]

/-- The byte string b-N. -/
def bN : Bytes := [78]

/-- The byte string b-W (GPSLongitudeRef west marker). -/
def bW : Bytes := [87]

/-- The byte string b-E. -/
def bE : Bytes := [69]

/-- A value stored in a GPS IFD as produced by piexif: a byte string
(refs), a single rational `(num, den)` (altitude), or a sequence of
rationals (latitude/longitude triples). -/
inductive GpsVal where
  | bytes (b : Bytes)
  | rat (num den : Nat)
  | rats (rs : List (Nat × Nat))
deriving DecidableEq

/-- Dictionary lookup in a GPS IFD (Python `gps_ifd[k]` / `k in gps_ifd`). -/
def lookupTag (k : Nat) (ifd : List (Nat × GpsVal)) : Option GpsVal :=
  List.lookup k ifd

/-- The inner `convert_to_degrees` of `get_gps_info`:
`d, m, s = value; return d[0]/d[1] + m[0]/m[1]/60 + s[0]/s[1]/3600`.
`none` models any raised exception: the value is not a 3-sequence of
rational pairs (unpack/indexing `TypeError`/`ValueError`), or a zero
denominator (`ZeroDivisionError`). -/
def convert_to_degrees : GpsVal → Option ℚ
  | .rats [(dn, dd), (mn, md), (sn, sd)] =>
      if dd = 0 ∨ md = 0 ∨ sd = 0 then none
      else some ((dn : ℚ) / (dd : ℚ) + (mn : ℚ) / (md : ℚ) / 60
                  + (sn : ℚ) / (sd : ℚ) / 3600)
  | _ => none

/-- Python `v[0] / v[1]` on a GPS IFD value, used for altitude
(`gps_ifd[6][0] / gps_ifd[6][1]`).  Indexing a byte string yields
integers, so a byte string of length ≥ 2 divides its first two bytes;
indexing a rational sequence yields pairs, whose division raises
`TypeError`; a zero denominator raises `ZeroDivisionError`.  `none`
models the exception. -/
def altOf : GpsVal → Option ℚ
  | .rat n d => if d = 0 then none else some ((n : ℚ) / (d : ℚ))
  | .bytes b =>
      match b.get? 0, b.get? 1 with
      | some x, some y => if y = 0 then none else some ((x : ℚ) / (y : ℚ))
      | _, _ => none
  | .rats _ => none

/-- The altitude line of `get_gps_info`:
`alt = gps_ifd[6][0] / gps_ifd[6][1] if 6 in gps_ifd else None`.
Outer `none` models an exception; `some none` is Python `None`. -/
def altStep (ifd : List (Nat × GpsVal)) : Option (Option ℚ) :=
  match lookupTag 6 ifd with
  | none => some none
  | some v => (altOf v).map some

/-- The successful result of `get_gps_info`: the returned dict.  The
`google_maps` URL field is modelled by the interpolated coordinate pair
in its query string. -/
structure GpsResult where
  latitude : ℚ
  longitude : ℚ
  altitude : Option ℚ
  googleMaps : ℚ × ℚ
deriving DecidableEq

/-- `get_gps_info(gps_ifd)` from the source: converts latitude (key 2)
and longitude (key 4), negates them when the refs (keys 1 and 3) equal
b-S resp. b-W, computes the optional altitude (key 6), and builds the
result dict.  The enclosing bare `except: return {}` maps every raised
exception to the empty dict, modelled as `none`. -/
def get_gps_info (ifd : List (Nat × GpsVal)) : Option GpsResult :=
  (lookupTag 2 ifd).bind fun v2 =>
  (convert_to_degrees v2).bind fun lat0 =>
  (lookupTag 1 ifd).bind fun r1 =>
  let lat := if r1 = GpsVal.bytes bS then -lat0 else lat0
  (lookupTag 4 ifd).bind fun v4 =>
  (convert_to_degrees v4).bind fun lon0 =>
  (lookupTag 3 ifd).bind fun r3 =>
  let lon := if r3 = GpsVal.bytes bW then -lon0 else lon0
  (altStep ifd).bind fun alt =>
  some { latitude := lat, longitude := lon, altitude := alt,
         googleMaps := (lat, lon) }

/-! ## Key and message string constants used by `extract_metadata` -/

/-- Key string constant. -/
def kFormat : String := "format"

/-- Key string constant. -/
def kMode : String := "mode"

/-- Key string constant. -/
def kSize : String := "size"

/-- Key string constant. -/
def kFilename : String := "filename"

/-- Key string constant. -/
def kFileSize : String := "file_size_bytes"

/-- Key string constant. -/
def kIcc : String := "icc_profile"

/-- Key string constant. -/
def kExif : String := "exif"

/-- Key string constant. -/
def kGps : String := "gps"

/-- Key string constant. -/
def kPHash : String := "perceptual_hash"

/-- Key string constant. -/
def kAHash : String := "average_hash"

/-- Key string constant. -/
def kDHash : String := "difference_hash"

/-- Key string constant. -/
def kWHash : String := "wavelet_hash"

/-- Key string constant. -/
def kHashes : String := "hashes"

/-- Key string constant. -/
def kHistMean : String := "histogram_mean"

/-- Key string constant. -/
def kHistMedian : String := "histogram_median"

/-- Key string constant. -/
def kHistStddev : String := "histogram_stddev"

/-- Key string constant. -/
def kHistRms : String := "histogram_rms"

/-- Key string constant. -/
def kHistBins : String := "histogram_bins"

/-- Key string constant. -/
def kHistogram : String := "histogram"

/-- Key string constant (inside the exif summary dict). -/
def kInfo : String := "info"

/-- Key string constant (inside the exif summary dict). -/
def kError : String := "error"

/-- Fallback filename when the file object has no `name` attribute. -/
def unknownName : String := "unknown"

/-- Sentinel written when an embedded ICC profile fails to parse. -/
def iccSentinel : String := "Embedded ICC profile found, could not parse description"

/-- Message stored under `info` when the image has no EXIF data. -/
def noExifMsg : String := "No EXIF data found in image."

/-- Sentinel written when any perceptual hash computation raises. -/
def hashFailMsg : String := "Unable to compute hashes"

/-- Sentinel written when the histogram computation raises. -/
def histFailMsg : String := "Unable to compute histogram"

/-! ## File size measurement (lines 54-65 of the source) -/

/-- A seekable in-memory stream (`BytesIO`): a read position and a
content length.  `tell()` returns `pos`; `seek(0, SEEK_END)` sets
`pos := len`; `seek(p, SEEK_SET)` sets `pos := p`. -/
structure Stream where
  pos : Nat
  len : Nat
deriving DecidableEq

/-- The stream branch of the file-size step, for file objects without a
`fileno`: save `current_pos = tell()`, seek to the end, read the size
with `tell()`, seek back to `current_pos`.  Returns the final stream
state and the measured size. -/
def measure_file_size (s : Stream) : Stream × Nat :=
  let current_pos := s.pos
  let s1 : Stream := { s with pos := s.len }
  let size := s1.pos
  let s2 : Stream := { s1 with pos := current_pos }
  (s2, size)

/-- The source of the file size: a file object with a `fileno` (whose
`os.fstat` call may raise) or a fileno-less seekable stream. -/
inductive FileSrc where
  | fileno (res : Except Unit Nat)
  | stream (s : Stream)

/-- The value stored under `file_size_bytes`, as a plain integer tag:
`none` models Python `None` after the `except` branch. -/
def fileSizeNum : FileSrc → Option Nat
  | .fileno (.ok n) => some n
  | .fileno (.error _) => none
  | .stream s => some (measure_file_size s).2

/-! ## ICC section (lines 67-76) -/

/-- ICC inputs: the raw `image.info.get('icc_profile')` bytes (`none`
when the key is missing) and the outcome of
`ImageCms.getOpenProfile(...).profile.product_desc.decode(...)`,
consulted only when the blob is truthy. -/
structure IccSrc where
  profile : Option Bytes
  parse : Except Unit String

/-! ## EXIF section (lines 78-113) -/

/-- A value stored in the 0th or Exif IFD dictionaries produced by
`piexif.load`: a byte string, an integer, or a rational pair. -/
inductive TagVal where
  | bytes (b : Bytes)
  | int (n : Int)
  | rat (num den : Int)
deriving DecidableEq

/-- EXIF inputs: no `exif` key in `image.info`; `piexif.load` raised
(with `str(e)`); or the three loaded IFD dictionaries. -/
inductive ExifSrc where
  | absent
  | loadError (msg : String)
  | loaded (zeroth exifIfd : List (Nat × TagVal)) (gps : List (Nat × GpsVal))

/-- A JSON-ish value in the output metadata dict. -/
inductive MVal where
  | str (s : String)
  | null
  | int (n : Int)
  | pair (a b : Int)
  | size (w h : Nat)
  | bytes (b : Bytes)
  | decoded (b : Bytes)
  | exnDecode (v : TagVal)
  | dict (entries : List (String × MVal))
  | gps (g : Option ImgMeta.GpsResult)
  | bins (l : List Nat)
  | nums (l : List ℚ)

/-- `d.get(tag, b'').decode('utf-8', 'ignore')`: missing tag decodes the
empty byte string, a byte-string value decodes with errors ignored, and
any non-bytes value raises `AttributeError` (carried as the error). -/
def decodeTag (d : List (Nat × TagVal)) (tag : Nat) : Except TagVal MVal :=
  match List.lookup tag d with
  | none => .ok (.decoded [])
  | some (.bytes b) => .ok (.decoded b)
  | some v => .error v

/-- `d.get(tag)`: the raw tag value, or Python `None` when missing. -/
def rawTag (d : List (Nat × TagVal)) (tag : Nat) : MVal :=
  match List.lookup tag d with
  | none => .null
  | some (.bytes b) => .bytes b
  | some (.int n) => .int n
  | some (.rat a b) => .pair a b

/-- One assignment in the `exif_summary` build: a `.decode`d byte-string
tag or a raw `.get` tag, read from the 0th IFD (`true`) or the Exif IFD
(`false`). -/
inductive SStep where
  | dec (key : String) (zeroth : Bool) (tag : Nat)
  | raw (key : String) (zeroth : Bool) (tag : Nat)

/-- Key string constant (exif summary). -/
def kCameraMake : String := "camera_make"

/-- Key string constant (exif summary). -/
def kCameraModel : String := "camera_model"

/-- Key string constant (exif summary). -/
def kIso : String := "iso"

/-- Key string constant (exif summary). -/
def kExposureTime : String := "exposure_time"

/-- Key string constant (exif summary). -/
def kAperture : String := "aperture"

/-- Key string constant (exif summary). -/
def kFocalLength : String := "focal_length"

/-- Key string constant (exif summary). -/
def kDateTaken : String := "date_taken"

/-- Key string constant (exif summary). -/
def kShutterSpeed : String := "shutter_speed"

/-- Key string constant (exif summary). -/
def kBrightness : String := "brightness_value"

/-- Key string constant (exif summary). -/
def kWhiteBalance : String := "white_balance"

/-- Key string constant (exif summary). -/
def kMeteringMode : String := "metering_mode"

/-- Key string constant (exif summary). -/
def kLensModel : String := "lens_model"

/-- Key string constant (exif summary). -/
def kExposureProgram : String := "exposure_program"

/-- Key string constant (exif summary). -/
def kSoftware : String := "software"

/-- Key string constant (exif summary). -/
def kOrientation : String := "orientation"

/-- Key string constant (exif summary). -/
def kFlashFired : String := "flash_fired"

/-- The sixteen `exif_summary` assignments of lines 88-103, in source
order, with the piexif numeric tag constants (`ImageIFD.Make = 271`,
`ImageIFD.Model = 272`, `ExifIFD.ISOSpeedRatings = 34855`,
`ExifIFD.ExposureTime = 33434`, `ExifIFD.FNumber = 33437`,
`ExifIFD.FocalLength = 37386`, `ExifIFD.DateTimeOriginal = 36867`,
`ExifIFD.ShutterSpeedValue = 37377`, `ExifIFD.BrightnessValue = 37379`,
`ExifIFD.WhiteBalance = 41987`, `ExifIFD.MeteringMode = 37383`,
`ExifIFD.LensModel = 42036`, `ExifIFD.ExposureProgram = 34850`,
`ImageIFD.Software = 305`, `ImageIFD.Orientation = 274`,
`ExifIFD.Flash = 37385`). -/
def summarySteps : List SStep :=
  [ .dec kCameraMake true 271, .dec kCameraModel true 272,
    .raw kIso false 34855, .raw kExposureTime false 33434,
    .raw kAperture false 33437, .raw kFocalLength false 37386,
    .dec kDateTaken false 36867, .raw kShutterSpeed false 37377,
    .raw kBrightness false 37379, .raw kWhiteBalance false 41987,
    .raw kMeteringMode false 37383, .dec kLensModel false 42036,
    .raw kExposureProgram false 34850, .dec kSoftware true 305,
    .raw kOrientation true 274, .raw kFlashFired false 37385 ]

/-- Runs the `exif_summary` assignments in order.  A `.decode` failure
raises: the keys assigned so far are kept, the outer `except Exception
as e` adds `error = str(e)`, and the remaining assignments (and the GPS
line) are skipped.  Returns the summary entries and whether the block
completed without an exception. -/
def runSummary (zeroth exifIfd : List (Nat × TagVal)) :
    List SStep → List (String × MVal) × Bool
  | [] => ([], true)
  | .raw k z tag :: rest =>
      let r := runSummary zeroth exifIfd rest
      ((k, rawTag (if z then zeroth else exifIfd) tag) :: r.1, r.2)
  | .dec k z tag :: rest =>
      match decodeTag (if z then zeroth else exifIfd) tag with
      | .ok v =>
          let r := runSummary zeroth exifIfd rest
          ((k, v) :: r.1, r.2)
      | .error v => ([(kError, .exnDecode v)], false)

/-- The EXIF block of `extract_metadata` (lines 78-113): produces the
`exif_summary` dict and the `gps_data` dict (`none` models the empty
dict `{}`).  GPS is decoded only when the whole summary ran without an
exception and the GPS IFD is truthy (non-empty). -/
def exifSection : ExifSrc → List (String × MVal) × Option GpsResult
  | .absent => ([(kInfo, .str noExifMsg)], none)
  | .loadError msg => ([(kError, .str msg)], none)
  | .loaded zeroth exifIfd gpsIfd =>
      let r := runSummary zeroth exifIfd summarySteps
      (r.1, if r.2 ∧ gpsIfd ≠ [] then get_gps_info gpsIfd else none)

/-! ## Hash section (lines 115-122) -/

/-- Outcomes of the four `imagehash` calls, in source order
(`phash`, `average_hash`, `dhash`, `whash`). -/
structure HashSrc where
  phash : Except Unit String
  ahash : Except Unit String
  dhash : Except Unit String
  whash : Except Unit String

/-- The hash block: each hash key is assigned in turn; the first raising
call aborts the rest, keeps the keys already assigned, and stores the
failure sentinel under `hashes`. -/
def hashSection (h : HashSrc) : List (String × MVal) :=
  match h.phash with
  | .error _ => [(kHashes, .str hashFailMsg)]
  | .ok s1 =>
    match h.ahash with
    | .error _ => [(kPHash, .str s1), (kHashes, .str hashFailMsg)]
    | .ok s2 =>
      match h.dhash with
      | .error _ => [(kPHash, .str s1), (kAHash, .str s2),
                     (kHashes, .str hashFailMsg)]
      | .ok s3 =>
        match h.whash with
        | .error _ => [(kPHash, .str s1), (kAHash, .str s2),
                       (kDHash, .str s3), (kHashes, .str hashFailMsg)]
        | .ok s4 => [(kPHash, .str s1), (kAHash, .str s2),
                     (kDHash, .str s3), (kWHash, .str s4)]

/-! ## Histogram section (lines 124-135) -/

/-- An RGB pixel of the image converted with `image.convert('RGB')`:
three 8-bit channel values. -/
abbrev Rgb := Fin 256 × Fin 256 × Fin 256

/-- Modelled from the spec: the 256-bin count array of one channel of
the RGB-converted image, as computed by the external imaging library's
`Image.histogram` — bin `v` counts the pixels whose channel value is
`v`. -/
def channelBins (f : Rgb → Fin 256) (px : List Rgb) : List Nat :=
  (List.range 256).map fun v => px.countP fun p => (f p).val == v

/-- Modelled from the spec: `image.convert('RGB').histogram()`, the
768-slot concatenation of the R, G and B channel bin arrays. -/
def histogram (px : List Rgb) : List Nat :=
  channelBins (fun p => p.1) px ++ channelBins (fun p => p.2.1) px
    ++ channelBins (fun p => p.2.2) px

/-- Histogram inputs: whether `ImageStat.Stat(image.convert('RGB'))`
succeeded and the four statistics it returned (external library
values), whether the later `image.convert('RGB').histogram()` call
succeeded, and the RGB pixels of the converted image. -/
structure HistSrc where
  statOk : Bool
  mean : List ℚ
  median : List ℚ
  stddev : List ℚ
  rms : List ℚ
  histOk : Bool
  pixels : List Rgb

/-- The histogram block: if `ImageStat.Stat` raises, only the failure
sentinel is stored; if it succeeds the four statistics keys are stored,
then the bins, or the sentinel if the histogram call raises. -/
def histSection (h : HistSrc) : List (String × MVal) :=
  if h.statOk then
    [(kHistMean, .nums h.mean), (kHistMedian, .nums h.median),
     (kHistStddev, .nums h.stddev), (kHistRms, .nums h.rms)] ++
    (if h.histOk then [(kHistBins, .bins (histogram h.pixels))]
     else [(kHistogram, .str histFailMsg)])
  else [(kHistogram, .str histFailMsg)]

/-! ## The assembler `extract_metadata` (lines 47-137) -/

/-- The inputs of one `extract_metadata` call: the decoded image's
format, mode and dimensions (from `Image.open`), the file object's
optional `name`, the file-size source, and the per-section inputs. -/
structure Env where
  format : String
  mode : String
  width : Nat
  height : Nat
  filename : Option String
  file : FileSrc
  icc : IccSrc
  exif : ExifSrc
  hashes : HashSrc
  hist : HistSrc

/-- The `file_size_bytes` value (lines 54-65): `os.fstat` size for file
objects with a `fileno`, the tell/seek measurement otherwise, `null`
when the step raises. -/
def fileSizeVal (f : FileSrc) : MVal :=
  match fileSizeNum f with
  | some n => .int n
  | none => .null

/-- The `icc_profile` value (lines 67-76): `null` when
`image.info.get('icc_profile')` is falsy (missing or empty bytes),
otherwise the decoded description or the unparsable sentinel. -/
def iccVal (icc : IccSrc) : MVal :=
  match icc.profile with
  | none => .null
  | some b =>
      if b = [] then .null
      else
        match icc.parse with
        | .ok d => .str d
        | .error _ => .str iccSentinel

/-- `extract_metadata(image_file)`: builds the metadata dict in source
assignment order — format, mode, size, filename, file size, ICC, the
EXIF summary and GPS dicts, the four hashes, and the histogram
statistics and bins.  The dict is an association list; every key is
assigned at most once. -/
def extract_metadata (env : Env) : List (String × MVal) :=
  let es := exifSection env.exif
  [(kFormat, .str env.format), (kMode, .str env.mode),
   (kSize, .size env.width env.height),
   (kFilename, .str (env.filename.getD unknownName)),
   (kFileSize, fileSizeVal env.file),
   (kIcc, iccVal env.icc),
   (kExif, .dict es.1), (kGps, .gps es.2)] ++
  hashSection env.hashes ++ histSection env.hist

/-- Reading one key of the output dict. -/
def getKey (k : String) (l : List (String × MVal)) : Option MVal :=
  List.lookup k l

/-- The keys of the output dict, in insertion order. -/
def keysOf (env : Env) : List String :=
  (extract_metadata env).map Prod.fst

/-! ## Concrete GPS IFD inputs used in the theorems -/

/-- A GPS IFD with the claim C1 example coordinates (40°26'46" N,
79°56'55" W), well-formed latitude/longitude and refs, no altitude. -/
def goodIfd : List (Nat × GpsVal) :=
  [(1, .bytes bN), (2, .rats [(40, 1), (26, 1), (46, 1)]),
   (3, .bytes bW), (4, .rats [(79, 1), (56, 1), (55, 1)])]

/-- The same IFD with a zero-denominator GPSAltitude rational added. -/
def badAltIfd : List (Nat × GpsVal) := goodIfd ++ [(6, .rat 1 0)]

/-- The same coordinates with both ref entries (keys 1 and 3) missing. -/
def noRefIfd : List (Nat × GpsVal) :=
  [(2, .rats [(40, 1), (26, 1), (46, 1)]),
   (4, .rats [(79, 1), (56, 1), (55, 1)])]

/-- A well-formed IFD whose converted coordinates (1000, -200) are far
outside the legal latitude/longitude ranges. -/
def oorIfd : List (Nat × GpsVal) :=
  [(1, .bytes bN), (2, .rats [(1000, 1), (0, 1), (0, 1)]),
   (3, .bytes bW), (4, .rats [(200, 1), (0, 1), (0, 1)])]

/-- A family of well-formed IFDs with arbitrary coordinate magnitudes
`n` (north latitude) and `m` (west longitude). -/
def unboundedIfd (n m : Nat) : List (Nat × GpsVal) :=
  [(1, .bytes bN), (2, .rats [(n, 1), (0, 1), (0, 1)]),
   (3, .bytes bW), (4, .rats [(m, 1), (0, 1), (0, 1)])]

/-- An IFD with a well-formed latitude but a zero denominator in the
longitude minutes rational. -/
def zeroDenLonIfd : List (Nat × GpsVal) :=
  [(1, .bytes bN), (2, .rats [(40, 1), (26, 1), (46, 1)]),
   (3, .bytes bW), (4, .rats [(79, 1), (56, 0), (55, 1)])]

/-- An IFD with a well-formed longitude but a zero denominator in the
latitude degrees rational. -/
def zeroDenLatIfd : List (Nat × GpsVal) :=
  [(1, .bytes bS), (2, .rats [(40, 0), (26, 1), (46, 1)]),
   (3, .bytes bE), (4, .rats [(79, 1), (56, 1), (55, 1)])]

/-! ## Claim C1 -/

/-- Claim C1, as stated, is false: two GPS IFDs whose latitude and
longitude are each well-formed 3-rational sequences with nonzero
denominators (refs N and W, so the claim predicts latitude
40+26/60+46/3600 and longitude -(79+56/60+55/3600)) on which the
decoder instead returns the empty result: one has a zero-denominator
GPSAltitude rational, the other lacks the ref entries, and the bare
`except` discards everything. -/
theorem c1_counterexample :
    get_gps_info badAltIfd = none ∧ get_gps_info noRefIfd = none := by
  constructor <;> rfl

/-- Claim C1 as amended: for every GPS IFD whose latitude (key 2) and
longitude (key 4) are 3-rational sequences with nonzero denominators,
whose ref entries (keys 1 and 3) are present, and whose GPSAltitude
entry (key 6) is either absent or a rational with nonzero denominator,
the decoder returns decimal degrees `deg + min/60 + sec/3600` (each
term numerator/denominator), negated exactly when the latitude ref is
the byte string S resp. the longitude ref is W. -/
theorem c1_theorem (ifd : List (Nat × GpsVal))
    (d1 d2 m1 m2 s1 s2 e1 e2 f1 f2 t1 t2 : Nat) (r1 r3 : GpsVal)
    (hlat : lookupTag 2 ifd = some (.rats [(d1, d2), (m1, m2), (s1, s2)]))
    (href1 : lookupTag 1 ifd = some r1)
    (hlon : lookupTag 4 ifd = some (.rats [(e1, e2), (f1, f2), (t1, t2)]))
    (href3 : lookupTag 3 ifd = some r3)
    (hd2 : d2 ≠ 0) (hm2 : m2 ≠ 0) (hs2 : s2 ≠ 0)
    (he2 : e2 ≠ 0) (hf2 : f2 ≠ 0) (ht2 : t2 ≠ 0)
    (halt : lookupTag 6 ifd = none ∨
      ∃ a b, lookupTag 6 ifd = some (.rat a b) ∧ b ≠ 0) :
    ∃ alt, get_gps_info ifd = some
      { latitude := if r1 = GpsVal.bytes bS
          then -((d1 : ℚ) / d2 + (m1 : ℚ) / m2 / 60 + (s1 : ℚ) / s2 / 3600)
          else (d1 : ℚ) / d2 + (m1 : ℚ) / m2 / 60 + (s1 : ℚ) / s2 / 3600,
        longitude := if r3 = GpsVal.bytes bW
          then -((e1 : ℚ) / e2 + (f1 : ℚ) / f2 / 60 + (t1 : ℚ) / t2 / 3600)
          else (e1 : ℚ) / e2 + (f1 : ℚ) / f2 / 60 + (t1 : ℚ) / t2 / 3600,
        altitude := alt,
        googleMaps :=
          (if r1 = GpsVal.bytes bS
            then -((d1 : ℚ) / d2 + (m1 : ℚ) / m2 / 60 + (s1 : ℚ) / s2 / 3600)
            else (d1 : ℚ) / d2 + (m1 : ℚ) / m2 / 60 + (s1 : ℚ) / s2 / 3600,
           if r3 = GpsVal.bytes bW
            then -((e1 : ℚ) / e2 + (f1 : ℚ) / f2 / 60 + (t1 : ℚ) / t2 / 3600)
            else (e1 : ℚ) / e2 + (f1 : ℚ) / f2 / 60 + (t1 : ℚ) / t2 / 3600) } := by
  have haltv : ∃ altv, altStep ifd = some altv := by
    rcases halt with h6 | ⟨a, b, h6, hb⟩
    · exact ⟨none, by simp [altStep, h6]⟩
    · exact ⟨some ((a : ℚ) / b), by simp [altStep, h6, altOf, hb]⟩
  obtain ⟨altv, ha⟩ := haltv
  refine ⟨altv, ?_⟩
  simp only [get_gps_info, hlat, href1, hlon, href3, ha, convert_to_degrees]
  simp [hd2, hm2, hs2, he2, hf2, ht2]

/-- Witness for C1 at the end-to-end example of the claim: the good IFD
satisfies every hypothesis, the decoder succeeds, and the returned
decimal degrees are within 0.0001 of 40.4461 and -79.9486. -/
theorem c1_witness :
    lookupTag 2 goodIfd = some (.rats [(40, 1), (26, 1), (46, 1)]) ∧
    lookupTag 6 goodIfd = none ∧
    (∃ alt, get_gps_info goodIfd = some
      { latitude := if GpsVal.bytes bN = GpsVal.bytes bS
          then -((40 : ℚ) / 1 + (26 : ℚ) / 1 / 60 + (46 : ℚ) / 1 / 3600)
          else (40 : ℚ) / 1 + (26 : ℚ) / 1 / 60 + (46 : ℚ) / 1 / 3600,
        longitude := if GpsVal.bytes bW = GpsVal.bytes bW
          then -((79 : ℚ) / 1 + (56 : ℚ) / 1 / 60 + (55 : ℚ) / 1 / 3600)
          else (79 : ℚ) / 1 + (56 : ℚ) / 1 / 60 + (55 : ℚ) / 1 / 3600,
        altitude := alt,
        googleMaps :=
          (if GpsVal.bytes bN = GpsVal.bytes bS
            then -((40 : ℚ) / 1 + (26 : ℚ) / 1 / 60 + (46 : ℚ) / 1 / 3600)
            else (40 : ℚ) / 1 + (26 : ℚ) / 1 / 60 + (46 : ℚ) / 1 / 3600,
           if GpsVal.bytes bW = GpsVal.bytes bW
            then -((79 : ℚ) / 1 + (56 : ℚ) / 1 / 60 + (55 : ℚ) / 1 / 3600)
            else (79 : ℚ) / 1 + (56 : ℚ) / 1 / 60 + (55 : ℚ) / 1 / 3600) }) ∧
    |((40 : ℚ) / 1 + (26 : ℚ) / 1 / 60 + (46 : ℚ) / 1 / 3600) - 404461 / 10000|
      < 1 / 10000 ∧
    |(-((79 : ℚ) / 1 + (56 : ℚ) / 1 / 60 + (55 : ℚ) / 1 / 3600)) + 799486 / 10000|
      < 1 / 10000 :=
  ⟨rfl, rfl,
   c1_theorem goodIfd 40 1 26 1 46 1 79 1 56 1 55 1
     (GpsVal.bytes bN) (GpsVal.bytes bW) rfl rfl rfl rfl
     (by decide) (by decide) (by decide) (by decide) (by decide) (by decide)
     (Or.inl rfl),
   by norm_num [abs_lt], by norm_num [abs_lt]⟩

/-! ## Claim C2 -/

/-- Claim C2 is false: the decoder applies no range validation.  On a
well-formed IFD it returns latitude 1000 (outside [-90, 90]) and
longitude -200 (outside [-180, 180]) instead of rejecting them. -/
theorem c2_counterexample :
    get_gps_info oorIfd =
      some { latitude := 1000, longitude := -200, altitude := none,
             googleMaps := (1000, -200) } ∧
    (90 : ℚ) < 1000 ∧ (-200 : ℚ) < -180 := by
  refine ⟨?_, by norm_num, by norm_num⟩
  simp [get_gps_info, oorIfd, lookupTag, convert_to_degrees, altStep,
        List.lookup, bN, bS, bW]

/-- Claim C2 as amended: the decoder performs no range check at all.
For every pair of magnitudes `n`, `m` it returns latitude `n` and
longitude `-m` unchanged, however large. -/
theorem c2_theorem (n m : Nat) :
    get_gps_info (unboundedIfd n m) =
      some { latitude := (n : ℚ), longitude := -(m : ℚ), altitude := none,
             googleMaps := ((n : ℚ), -(m : ℚ)) } := by
  simp [get_gps_info, unboundedIfd, lookupTag, convert_to_degrees, altStep,
        List.lookup, bN, bS, bW]

/-! ## Claim C3 -/

/-- Claim C3, as stated, is false: on an IFD whose latitude is
well-formed (its conversion succeeds) but whose longitude has a zero
denominator, the decoder returns the empty result — the well-formed
latitude is discarded, not returned. -/
theorem c3_counterexample :
    (convert_to_degrees (GpsVal.rats [(40, 1), (26, 1), (46, 1)])).isSome
      = true ∧
    get_gps_info zeroDenLonIfd = none := by
  constructor <;> rfl

/-- Claim C3 as amended: the decoder never raises to its caller (it is
a total function), and whenever any rational of the latitude,
longitude, or altitude entry has a zero denominator the whole GPS
result is the empty dict — the other, well-formed coordinate is
discarded together with the failing one. -/
theorem c3_theorem (ifd : List (Nat × GpsVal))
    (h : (∃ a1 b1 a2 b2 a3 b3,
            lookupTag 2 ifd = some (.rats [(a1, b1), (a2, b2), (a3, b3)]) ∧
            (b1 = 0 ∨ b2 = 0 ∨ b3 = 0)) ∨
         (∃ a1 b1 a2 b2 a3 b3,
            lookupTag 4 ifd = some (.rats [(a1, b1), (a2, b2), (a3, b3)]) ∧
            (b1 = 0 ∨ b2 = 0 ∨ b3 = 0)) ∨
         (∃ a, lookupTag 6 ifd = some (.rat a 0))) :
    get_gps_info ifd = none := by
  rcases h with ⟨a1, b1, a2, b2, a3, b3, h2, hz⟩ |
    ⟨a1, b1, a2, b2, a3, b3, h4, hz⟩ | ⟨a, h6⟩
  · have hc : convert_to_degrees (.rats [(a1, b1), (a2, b2), (a3, b3)]) = none := by
      rcases hz with hz | hz | hz <;> simp [convert_to_degrees, hz]
    simp [get_gps_info, h2, hc]
  · have hc : convert_to_degrees (.rats [(a1, b1), (a2, b2), (a3, b3)]) = none := by
      rcases hz with hz | hz | hz <;> simp [convert_to_degrees, hz]
    cases hv2 : lookupTag 2 ifd with
    | none => simp [get_gps_info, hv2]
    | some v2 =>
      cases hcv : convert_to_degrees v2 with
      | none => simp [get_gps_info, hv2, hcv]
      | some lat0 =>
        cases hr1 : lookupTag 1 ifd with
        | none => simp [get_gps_info, hv2, hcv, hr1]
        | some r1 => simp [get_gps_info, hv2, hcv, hr1, h4, hc]
  · have hc : altStep ifd = none := by simp [altStep, h6, altOf]
    cases hv2 : lookupTag 2 ifd with
    | none => simp [get_gps_info, hv2]
    | some v2 =>
      cases hcv : convert_to_degrees v2 with
      | none => simp [get_gps_info, hv2, hcv]
      | some lat0 =>
        cases hr1 : lookupTag 1 ifd with
        | none => simp [get_gps_info, hv2, hcv, hr1]
        | some r1 =>
          cases hv4 : lookupTag 4 ifd with
          | none => simp [get_gps_info, hv2, hcv, hr1, hv4]
          | some v4 =>
            cases hcv4 : convert_to_degrees v4 with
            | none => simp [get_gps_info, hv2, hcv, hr1, hv4, hcv4]
            | some lon0 =>
              cases hr3 : lookupTag 3 ifd with
              | none => simp [get_gps_info, hv2, hcv, hr1, hv4, hcv4, hr3]
              | some r3 =>
                simp [get_gps_info, hv2, hcv, hr1, hv4, hcv4, hr3, hc]

/-- Witness for C3 at a concrete IFD with a zero-denominator latitude
degrees rational: the hypothesis holds and the decoder returns the
empty result. -/
theorem c3_witness :
    lookupTag 2 zeroDenLatIfd = some (.rats [(40, 0), (26, 1), (46, 1)]) ∧
    get_gps_info zeroDenLatIfd = none :=
  ⟨rfl, c3_theorem zeroDenLatIfd
    (Or.inl ⟨40, 0, 26, 1, 46, 1, rfl, Or.inl rfl⟩)⟩

/-! ## Claim C10 -/

/-- Claim C10: for a seekable stream without a fileno, the file-size
measurement restores the read position — the position after the step
equals the position before it (and the measured size is the stream's
end offset). -/
theorem c10_theorem (s : Stream) :
    (measure_file_size s).1.pos = s.pos ∧
    (measure_file_size s).2 = s.len := by
  constructor <;> rfl

/-! ## Helper lemmas and concrete environments for the assembler claims -/

/-- Association-list lookup distributes over append. -/
lemma getKey_append (k : String) (l₁ l₂ : List (String × MVal)) :
    List.lookup k (l₁ ++ l₂) = (List.lookup k l₁).or (List.lookup k l₂) := by
  induction l₁ with
  | nil => simp [List.lookup]
  | cons a t ih =>
      cases hb : k == a.1 <;> simp [List.lookup, hb, ih]

/-- Whether an external call succeeded. -/
def exOk : Except Unit String → Bool
  | .ok _ => true
  | .error _ => false

/-- Whether all four `imagehash` calls succeed. -/
def allHashOk (h : HashSrc) : Bool :=
  exOk h.phash && exOk h.ahash && exOk h.dhash && exOk h.whash

/-- The ICC value reaches the output record untouched by the other
sections. -/
lemma getKey_icc (env : Env) :
    getKey kIcc (extract_metadata env) = some (iccVal env.icc) := rfl

/-- Sample hash strings for the concrete environments. -/
def pStr : String := "p-hash"

/-- Sample hash string. -/
def aStr : String := "a-hash"

/-- Sample hash string. -/
def dStr : String := "d-hash"

/-- Sample hash string. -/
def wStr : String := "w-hash"

/-- Sample parsed ICC description. -/
def sampleDesc : String := "sRGB IEC61966-2.1"

/-- Sample format name. -/
def jpegStr : String := "JPEG"

/-- Sample mode name. -/
def rgbStr : String := "RGB"

/-- Four RGB pixels of the same color: a uniform 2x2 image. -/
def uniformPixels : List Rgb := [(5, 5, 5), (5, 5, 5), (5, 5, 5), (5, 5, 5)]

/-- A fully successful extraction environment: a 2x2 uniform JPEG read
from an in-memory stream, no ICC profile, no EXIF data, all four
hashes and the histogram succeeding. -/
def baseEnv : Env :=
  { format := jpegStr, mode := rgbStr, width := 2, height := 2,
    filename := none,
    file := .stream ⟨0, 1234⟩,
    icc := ⟨none, .error ()⟩,
    exif := .absent,
    hashes := ⟨.ok pStr, .ok aStr, .ok dStr, .ok wStr⟩,
    hist := ⟨true, [5], [5], [0], [5], true, uniformPixels⟩ }

/-- `baseEnv` with the first hash call (`imagehash.phash`) raising. -/
def c5Env : Env :=
  { baseEnv with hashes := ⟨.error (), .ok aStr, .ok dStr, .ok wStr⟩ }

/-- `baseEnv` with an embedded zero-length ICC profile blob. -/
def c6Env : Env := { baseEnv with icc := ⟨some [], .error ()⟩ }

/-- `baseEnv` with a nonempty ICC profile whose description parse fails. -/
def c6UnparsableEnv : Env :=
  { baseEnv with icc := ⟨some [1, 2, 3], .error ()⟩ }

/-- `baseEnv` with a nonempty ICC profile parsing to a description. -/
def c6ParsedEnv : Env :=
  { baseEnv with icc := ⟨some [1, 2, 3], .ok sampleDesc⟩ }

/-! ## Claim C4 -/

/-- Claim C4: extraction always returns a record, and each section's
output is a function of that section's inputs alone, so no analyzer's
failure prevents another's execution or its result from appearing:
format, mode, dimensions, filename and file size are present with
their values for every combination of analyzer outcomes, the ICC, EXIF
and GPS fields are the ICC resp. EXIF section's own results, and the
hash and histogram entries are exactly the hash resp. histogram
section's own results. -/
theorem c4_theorem (env : Env) :
    getKey kFormat (extract_metadata env) = some (.str env.format) ∧
    getKey kMode (extract_metadata env) = some (.str env.mode) ∧
    getKey kSize (extract_metadata env) = some (.size env.width env.height) ∧
    getKey kFilename (extract_metadata env)
      = some (.str (env.filename.getD unknownName)) ∧
    getKey kFileSize (extract_metadata env) = some (fileSizeVal env.file) ∧
    getKey kIcc (extract_metadata env) = some (iccVal env.icc) ∧
    getKey kExif (extract_metadata env)
      = some (.dict (exifSection env.exif).1) ∧
    getKey kGps (extract_metadata env) = some (.gps (exifSection env.exif).2) ∧
    getKey kPHash (extract_metadata env)
      = List.lookup kPHash (hashSection env.hashes) ∧
    getKey kHashes (extract_metadata env)
      = List.lookup kHashes (hashSection env.hashes) ∧
    getKey kHistBins (extract_metadata env)
      = List.lookup kHistBins (histSection env.hist) ∧
    getKey kHistogram (extract_metadata env)
      = List.lookup kHistogram (histSection env.hist) := by
  obtain ⟨f, m, w, hgt, fn, fs, icc, ex, ⟨p, a, d, wh⟩,
    ⟨st, me, md, sd, rm, ho, px⟩⟩ := env
  cases p <;> cases a <;> cases d <;> cases wh <;> cases st <;> cases ho <;>
    exact ⟨rfl, rfl, rfl, rfl, rfl, rfl, rfl, rfl, rfl, rfl, rfl, rfl⟩

/-! ## Claim C5 -/

/-- Claim C5, as stated, is false: when the first hash call raises, the
four hash fields are omitted from the record entirely (no null, no
sentinel value under those keys); only a differently named `hashes`
sentinel entry is added. -/
theorem c5_counterexample :
    getKey kPHash (extract_metadata c5Env) = none ∧
    getKey kAHash (extract_metadata c5Env) = none ∧
    getKey kDHash (extract_metadata c5Env) = none ∧
    getKey kWHash (extract_metadata c5Env) = none ∧
    getKey kHashes (extract_metadata c5Env) = some (.str hashFailMsg) :=
  ⟨rfl, rfl, rfl, rfl, rfl⟩

/-- Claim C5 as amended: the ICC, GPS and EXIF fields are always
present (with null/empty sentinels on failure), but the hash and
histogram fields are not: each hash key is present exactly when its
call and all earlier hash calls succeeded, the `hashes` sentinel key
appears exactly when some hash call failed, the histogram keys are
present exactly when their computations succeeded, and the `histogram`
sentinel key appears exactly when one failed — failed hash/histogram
fields are omitted, not written as nulls. -/
theorem c5_theorem (env : Env) :
    (getKey kIcc (extract_metadata env)).isSome = true ∧
    (getKey kGps (extract_metadata env)).isSome = true ∧
    (getKey kExif (extract_metadata env)).isSome = true ∧
    (getKey kPHash (extract_metadata env)).isSome = exOk env.hashes.phash ∧
    (getKey kAHash (extract_metadata env)).isSome
      = (exOk env.hashes.phash && exOk env.hashes.ahash) ∧
    (getKey kDHash (extract_metadata env)).isSome
      = (exOk env.hashes.phash && exOk env.hashes.ahash
          && exOk env.hashes.dhash) ∧
    (getKey kWHash (extract_metadata env)).isSome = allHashOk env.hashes ∧
    (getKey kHashes (extract_metadata env)).isSome = !allHashOk env.hashes ∧
    (getKey kHistMean (extract_metadata env)).isSome = env.hist.statOk ∧
    (getKey kHistBins (extract_metadata env)).isSome
      = (env.hist.statOk && env.hist.histOk) ∧
    (getKey kHistogram (extract_metadata env)).isSome
      = !(env.hist.statOk && env.hist.histOk) := by
  obtain ⟨f, m, w, hgt, fn, fs, icc, ex, ⟨p, a, d, wh⟩,
    ⟨st, me, md, sd, rm, ho, px⟩⟩ := env
  cases p <;> cases a <;> cases d <;> cases wh <;> cases st <;> cases ho <;>
    exact ⟨rfl, rfl, rfl, rfl, rfl, rfl, rfl, rfl, rfl, rfl, rfl⟩

/-! ## Claim C6 -/

/-- Claim C6, as stated, is false: an image carrying an embedded
zero-length ICC profile blob (a profile entry is present, and it is
certainly unparsable) is reported with the "absent" null sentinel,
collapsing the "present but unparsable" state into the "absent"
state. -/
theorem c6_counterexample :
    (c6Env.icc.profile).isSome = true ∧
    getKey kIcc (extract_metadata c6Env) = some MVal.null :=
  ⟨rfl, rfl⟩

/-- Claim C6 as amended: for images whose embedded ICC blob is nonempty
the three states are distinguished — no profile yields null, an
unparsable profile yields the fixed sentinel string, and a parsed
profile yields its decoded description — but an embedded zero-length
blob also yields null, indistinguishable from an absent profile. -/
theorem c6_theorem (env : Env) :
    (env.icc.profile = none →
      getKey kIcc (extract_metadata env) = some MVal.null) ∧
    (env.icc.profile = some [] →
      getKey kIcc (extract_metadata env) = some MVal.null) ∧
    (∀ b, env.icc.profile = some b → b ≠ [] → env.icc.parse = .error () →
      getKey kIcc (extract_metadata env) = some (.str iccSentinel)) ∧
    (∀ b s, env.icc.profile = some b → b ≠ [] → env.icc.parse = .ok s →
      getKey kIcc (extract_metadata env) = some (.str s)) := by
  refine ⟨fun h => ?_, fun h => ?_, fun b h hb hp => ?_, fun b s h hb hp => ?_⟩
  · rw [getKey_icc]; simp [iccVal, h]
  · rw [getKey_icc]; simp [iccVal, h]
  · rw [getKey_icc]; simp [iccVal, h, hb, hp]
  · rw [getKey_icc]; simp [iccVal, h, hb, hp]

/-- Witness for C6: the three hypotheses of the amended claim
discharged at concrete environments — no profile gives null, a
nonempty unparsable profile gives the sentinel, a nonempty parsed
profile gives its description. -/
theorem c6_witness :
    getKey kIcc (extract_metadata baseEnv) = some MVal.null ∧
    getKey kIcc (extract_metadata c6UnparsableEnv) = some (.str iccSentinel) ∧
    getKey kIcc (extract_metadata c6ParsedEnv) = some (.str sampleDesc) :=
  ⟨(c6_theorem baseEnv).1 rfl,
   (c6_theorem c6UnparsableEnv).2.2.1 [1, 2, 3] rfl (by decide) rfl,
   (c6_theorem c6ParsedEnv).2.2.2 [1, 2, 3] sampleDesc rfl (by decide) rfl⟩

/-! ## Histogram counting lemmas -/

/-- Summing the indicator of one value over an index range. -/
lemma sum_map_range_ite (k n : Nat) :
    ((List.range n).map fun v => if k = v then 1 else 0).sum
      = if k < n then 1 else 0 := by
  induction n with
  | zero => simp
  | succ n ih =>
      rw [List.range_succ, List.map_append, List.sum_append, ih]
      simp only [List.map_cons, List.map_nil, List.sum_cons, List.sum_nil,
        Nat.add_zero]
      split_ifs <;> omega

/-- Summing a pointwise sum of maps. -/
lemma sum_map_add {α : Type} (l : List α) (f g : α → Nat) :
    (l.map fun x => f x + g x).sum = (l.map f).sum + (l.map g).sum := by
  induction l with
  | nil => rfl
  | cons a t ih => simp [ih]; omega

/-- Summing a constant-zero map. -/
lemma sum_map_zero {α : Type} (l : List α) :
    (l.map fun _ => (0 : Nat)).sum = 0 := by
  induction l with
  | nil => rfl
  | cons a t ih => simp [ih]

/-- The 256 bins of one channel sum to the number of pixels: every
pixel's channel value lands in exactly one bin. -/
lemma channelBins_sum (f : Rgb → Fin 256) (px : List Rgb) :
    (channelBins f px).sum = px.length := by
  induction px with
  | nil =>
      unfold channelBins
      simp only [List.countP_nil]
      exact sum_map_zero _
  | cons p t ih =>
      have hstep : channelBins f (p :: t)
          = (List.range 256).map fun v =>
              (t.countP fun q => (f q).val == v)
                + if (f p).val = v then 1 else 0 := by
        unfold channelBins
        refine List.map_congr_left fun v _ => ?_
        rw [List.countP_cons]
        by_cases h : (f p).val = v <;> simp [h]
      have h2 : ((List.range 256).map fun v =>
          if (f p).val = v then 1 else 0).sum = 1 := by
        rw [sum_map_range_ite]; simp [(f p).isLt]
      have h1 : ((List.range 256).map fun v =>
          t.countP fun q => (f q).val == v).sum = t.length := ih
      rw [hstep, sum_map_add, h1, h2, List.length_cons]

/-- Each channel's bin array has exactly 256 slots. -/
lemma channelBins_length (f : Rgb → Fin 256) (px : List Rgb) :
    (channelBins f px).length = 256 := by
  simp [channelBins]

/-- The concatenated histogram has exactly 768 slots. -/
lemma histogram_length (px : List Rgb) : (histogram px).length = 768 := by
  simp [histogram, channelBins]

/-- The first 256 histogram slots are the red channel's bins. -/
lemma histogram_take_r (px : List Rgb) :
    (histogram px).take 256 = channelBins (fun p => p.1) px := by
  rw [histogram, List.append_assoc]
  exact List.take_left' (channelBins_length _ _)

/-- Dropping the red slots leaves the green and blue bins. -/
lemma histogram_drop_r (px : List Rgb) :
    (histogram px).drop 256
      = channelBins (fun p => p.2.1) px ++ channelBins (fun p => p.2.2) px := by
  rw [histogram, List.append_assoc]
  exact List.drop_left' (channelBins_length _ _)

/-- The last 256 histogram slots are the blue channel's bins. -/
lemma histogram_drop_gb (px : List Rgb) :
    (histogram px).drop 512 = channelBins (fun p => p.2.2) px := by
  rw [histogram]
  exact List.drop_left'
    (by rw [List.length_append, channelBins_length, channelBins_length])

/-- The histogram entry of the output record is the histogram section's
own bins when both histogram calls succeed. -/
lemma getKey_histBins (env : Env) (hst : env.hist.statOk = true)
    (hh : env.hist.histOk = true) :
    getKey kHistBins (extract_metadata env)
      = some (.bins (histogram env.hist.pixels)) := by
  obtain ⟨f, m, w, hgt, fn, fs, icc, ex, ⟨p, a, d, wh⟩,
    ⟨st, me, md, sd, rm, ho, px⟩⟩ := env
  subst hst hh
  cases p <;> cases a <;> cases d <;> cases wh <;> rfl

/-! ## Claim C7 -/

/-- Claim C7: when histogram analysis succeeds on an image of `w*h`
pixels, the record's histogram is a 768-slot sequence in which the red,
green and blue 256-bin segments each sum to exactly `w*h`, so the whole
histogram sums to `3*w*h`. -/
theorem c7_theorem (env : Env) (hst : env.hist.statOk = true)
    (hh : env.hist.histOk = true)
    (hpx : env.hist.pixels.length = env.width * env.height) :
    getKey kHistBins (extract_metadata env)
      = some (.bins (histogram env.hist.pixels)) ∧
    (histogram env.hist.pixels).length = 768 ∧
    ((histogram env.hist.pixels).take 256).sum = env.width * env.height ∧
    (((histogram env.hist.pixels).drop 256).take 256).sum
      = env.width * env.height ∧
    ((histogram env.hist.pixels).drop 512).sum = env.width * env.height ∧
    (histogram env.hist.pixels).sum = 3 * (env.width * env.height) := by
  refine ⟨getKey_histBins env hst hh, histogram_length _, ?_, ?_, ?_, ?_⟩
  · rw [histogram_take_r, channelBins_sum, hpx]
  · rw [histogram_drop_r, List.take_left' (channelBins_length _ _),
      channelBins_sum, hpx]
  · rw [histogram_drop_gb, channelBins_sum, hpx]
  · rw [histogram, List.sum_append, List.sum_append, channelBins_sum,
      channelBins_sum, channelBins_sum, hpx]
    ring

/-- Witness for C7 at the fully successful 2x2 environment: the
hypotheses hold and the 768 bins carry four counts per channel. -/
theorem c7_witness :
    baseEnv.hist.statOk = true ∧ baseEnv.hist.histOk = true ∧
    baseEnv.hist.pixels.length = baseEnv.width * baseEnv.height ∧
    (getKey kHistBins (extract_metadata baseEnv)
        = some (.bins (histogram baseEnv.hist.pixels)) ∧
      (histogram baseEnv.hist.pixels).length = 768 ∧
      ((histogram baseEnv.hist.pixels).take 256).sum
        = baseEnv.width * baseEnv.height ∧
      (((histogram baseEnv.hist.pixels).drop 256).take 256).sum
        = baseEnv.width * baseEnv.height ∧
      ((histogram baseEnv.hist.pixels).drop 512).sum
        = baseEnv.width * baseEnv.height ∧
      (histogram baseEnv.hist.pixels).sum
        = 3 * (baseEnv.width * baseEnv.height)) :=
  ⟨rfl, rfl, rfl, c7_theorem baseEnv rfl rfl rfl⟩

/-! ## Claims C8 and C9: fields the record never contains -/

/-- The key the spec's aspect-ratio field would use. -/
def kAspect : String := "aspect_ratio"

/-- The key the spec's megapixel field would use. -/
def kMegapixels : String := "megapixels"

/-- The key the spec's dominant-color field would use. -/
def kDominant : String := "dominant_colors"

/-- Every key `extract_metadata` can ever emit. -/
def allowedKeys : List String :=
  [kFormat, kMode, kSize, kFilename, kFileSize, kIcc, kExif, kGps,
   kPHash, kAHash, kDHash, kWHash, kHashes,
   kHistMean, kHistMedian, kHistStddev, kHistRms, kHistBins, kHistogram]

/-- Claim C8, as stated, is false at a concrete extraction: the output
record's keys are exactly the seventeen below — there is no
aspect-ratio and no megapixel field. -/
theorem c8_counterexample :
    keysOf baseEnv
      = [kFormat, kMode, kSize, kFilename, kFileSize, kIcc, kExif, kGps,
         kPHash, kAHash, kDHash, kWHash,
         kHistMean, kHistMedian, kHistStddev, kHistRms, kHistBins] ∧
    (keysOf baseEnv).contains kAspect = false ∧
    (keysOf baseEnv).contains kMegapixels = false :=
  ⟨rfl, rfl, rfl⟩

/-- Claim C8 as amended: the record's keys always lie in the fixed
nineteen-key set, which contains no aspect-ratio and no megapixel
field; `extract_metadata` computes neither quantity for any image. -/
theorem c8_theorem (env : Env) :
    (keysOf env).all (fun k => allowedKeys.contains k) = true ∧
    (keysOf env).contains kAspect = false ∧
    (keysOf env).contains kMegapixels = false := by
  obtain ⟨f, m, w, hgt, fn, fs, icc, ex, ⟨p, a, d, wh⟩,
    ⟨st, me, md, sd, rm, ho, px⟩⟩ := env
  cases p <;> cases a <;> cases d <;> cases wh <;> cases st <;> cases ho <;>
    exact ⟨rfl, rfl, rfl⟩

/-- Claim C9, as stated, is false: on a uniform solid-color image (all
four downsampled pixels equal) the output record carries no
dominant-color entry at all — the pipeline never computes one. -/
theorem c9_counterexample :
    baseEnv.hist.pixels.all (fun p => p == ((5 : Fin 256), 5, 5)) = true ∧
    (keysOf baseEnv).contains kDominant = false :=
  ⟨rfl, rfl⟩

/-- Claim C9 as amended: the record's keys always lie in the fixed
nineteen-key set, which has no dominant-color field; no downsampling or
color-counting pass exists in the pipeline for any image, uniform or
not. -/
theorem c9_theorem (env : Env) :
    (keysOf env).all (fun k => allowedKeys.contains k) = true ∧
    (keysOf env).contains kDominant = false := by
  obtain ⟨f, m, w, hgt, fn, fs, icc, ex, ⟨p, a, d, wh⟩,
    ⟨st, me, md, sd, rm, ho, px⟩⟩ := env
  cases p <;> cases a <;> cases d <;> cases wh <;> cases st <;> cases ho <;>
    exact ⟨rfl, rfl⟩

end ImgMeta
